import Mathlib

/-!
Verification of the typed-app-router specification against a shallow
embedding of the typed variant of the library (the latest variant in
src/lib/index.ts, the one the specification describes).

The embedding mirrors, definition by definition:
  - Navigation.createFromUrl (URL parsing with encodeURI / decodeURIComponent),
  - the handler chain (PathHandler, ParamHandler, MultiParamHandler,
    CallbackHandler) and Subrouter.route / Router.route,
  - the BaseParamHandler construction-time arity check (keysOf),
  - the navigation sequencer in Router.navigate (cancellation of the
    pending navigation, the commit step guarded by handled and cancelled).

External collaborators (the typed-validation package, the browser history
adapters) are modelled as black-box capabilities, exactly as the
specification treats them: a field validator is a function from the raw
segment string to an optional typed value, and the history adapter is
observed through the list of setUrl calls recorded by the sequencer state.
-/

namespace TypedAppRouter

/-- Values produced by validators: a raw string, a converted number, or an
array of values (used by the multi-parameter matcher). -/
inductive Value where
  | str (s : String)
  | num (n : Nat)
  | arr (elems : List Value)

/-- The accumulated parameter object, modelled as an association list from
field names to validated values (a JavaScript object with string keys). -/
def Params := List (String × Value)

/-- Observable effect of a successful route walk: which registered terminal
callback fired, and with which accumulated parameter object. At most one
callback fires per walk (first match wins), so an Option suffices. -/
def CbCall := Nat × Params

/-- Assignment of one field of a JavaScript-object-like association list:
overwrite the value at an existing key in place, or append a new binding.
This models property assignment, which is what Object.assign does per key. -/
def setKey {β : Type} : List (String × β) → String → β → List (String × β)
  | [], k, v => [(k, v)]
  | (k₀, v₀) :: rest, k, v =>
    if k₀ == k then (k, v) :: rest else (k₀, v₀) :: setKey rest k v

/-- Model of keysOf from src/lib/utils/index.ts: the list of own enumerable
keys of the validator object, in declaration order. -/
def keysOf {β : Type} (v : List (String × β)) : List String := v.map Prod.fst

/-- Model of the merge `Object.assign(\x7b\x7d, params, result.value)` in
BaseParamHandler.route: a fresh object holding all bindings of `p`, then all
bindings of `q` written over it. The inputs are not mutated. -/
def mergeParams (p q : Params) : Params :=
  q.foldl (fun acc kv => setKey acc kv.1 kv.2) p

/-- Worker for jsSplit: split a character list at every occurrence of the
separator. Always returns at least one piece, like the JavaScript split. -/
def splitChars (sep : Char) : List Char → List (List Char)
  | [] => [[]]
  | c :: rest =>
    let r := splitChars sep rest
    if c == sep then [] :: r
    else (c :: r.headD []) :: r.tail

/-- Model of the JavaScript `s.split(sep)` for a one-character separator
(every split in the source uses one of the separators slash, question mark,
ampersand, equals sign). -/
def jsSplit (sep : Char) (s : String) : List String :=
  (splitChars sep s.toList).map String.mk

/-- Model of the JavaScript `url.indexOf(c) >= 0` containment test. -/
def containsChar (c : Char) (s : String) : Bool :=
  s.toList.contains c

/-- Path segmentation, shared by the PathHandler constructor
(`path.split('/').filter(c => c.length !== 0)`, line 337) and Router.route
(`nav.path.split('/').filter(c => c.length !== 0)`, line 669): split on
slash and discard empty components. -/
def splitPath (s : String) : List String :=
  (jsSplit '/' s).filter (fun c => c.length != 0)

/-- The handler chain, a closed tagged-variant set as in section 9 of the
specification. A field validator (for paramHandler) is a black-box
capability String → Option Value; the multi-parameter validator acts on the
whole array of remaining segments, List String → Option Value. The nested
subrouter owned by path/param/multiparam registration is its ordered handler
list. The terminal callback is identified by a numeric id; the Navigation
value is passed through the walk unchanged, so it is left implicit here. -/
inductive Handler where
  | pathHandler (pathComponents : List String) (next : List Handler)
  | paramHandler (key : String) (vf : String → Option Value) (next : List Handler)
  | multiParamHandler (key : String) (vf : List String → Option Value) (next : List Handler)
  | callbackHandler (id : Nat) (ignoreAdditionalPath : Bool)

/-- The for loop of PathHandler.route (lines 345-349): every pattern
component equals the corresponding segment, compared by exact string
equality. Called only after the length guard of line 341. -/
def prefixMatches (comps subpath : List String) : Bool :=
  (comps.zip subpath).all fun cs => cs.1 == cs.2

mutual

/-- Model of IHandler.route for each concrete handler class:
  - pathHandler: PathHandler.route (lines 340-352): fail if fewer segments
    than pattern components, compare componentwise, delegate with the
    matched prefix removed;
  - paramHandler: BaseParamHandler.route (lines 372-384) with
    ParamHandler.validate (lines 400-407): fail on empty subpath, validate
    a one-field candidate object built from the first segment, on success
    delegate with one segment consumed and the validated value merged into
    a fresh parameter object;
  - multiParamHandler: BaseParamHandler.route with MultiParamHandler.validate
    (lines 429-436): fail on empty subpath, validate the whole array of
    remaining segments, on success delegate with an empty remainder;
  - callbackHandler: CallbackHandler.route (lines 472-479): fail if
    additional segments remain and ignoreAdditionalPath is false, otherwise
    invoke the callback and succeed. -/
def Handler.route : Handler → Params → List String → Option CbCall
  | .pathHandler comps next, params, subpath =>
    if subpath.length < comps.length then none
    else if prefixMatches comps subpath then
      Subrouter.route next params (subpath.drop comps.length)
    else none
  | .paramHandler key vf next, params, subpath =>
    match subpath with
    | [] => none
    | seg :: rest =>
      match vf seg with
      | none => none
      | some v => Subrouter.route next (mergeParams params [(key, v)]) rest
  | .multiParamHandler key vf next, params, subpath =>
    match subpath with
    | [] => none
    | seg :: rest =>
      match vf (seg :: rest) with
      | none => none
      | some v => Subrouter.route next (mergeParams params [(key, v)]) []
  | .callbackHandler id ignoreAdditionalPath, params, subpath =>
    if !ignoreAdditionalPath && !(subpath.length == 0) then none
    else some (id, params)

/-- Model of Subrouter.route (lines 441-449) and of the loop of Router.route
(lines 671-675): try the registered handlers strictly in registration
order, return the first success, fail when all entries fail. -/
def Subrouter.route : List Handler → Params → List String → Option CbCall
  | [], _, _ => none
  | h :: rest, params, subpath =>
    match h.route params subpath with
    | some c => some c
    | none => Subrouter.route rest params subpath

end

/-! URL encoding and decoding.

The source calls the JavaScript builtins encodeURI (in createFromUrl,
line 261) and decodeURIComponent (line 277). They are embedded here:
encodeURI leaves the URI unescaped set (letters, digits, the marks below)
intact and escapes every other character as the percent-escaped bytes of
its UTF-8 encoding, with uppercase hexadecimal digits. The decoder is
modelled on the ASCII fragment: a percent escape of a byte below 0x80
decodes to that character, any other character passes through unchanged.
(The builtin additionally decodes multi-byte UTF-8 escape sequences and
throws URIError on malformed input; no claim exercises either behaviour.) -/

/-- Characters that encodeURI leaves unescaped besides ASCII letters and
digits: the unreserved marks and the reserved separators. The percent sign
is not among them, which is why encodeURI double-encodes. -/
def uriMarks : List Char :=
  ['-', '_', '.', '!', '~', '*', '\'', '(', ')',
   ';', '/', '?', ':', '@', '&', '=', '+', '$', ',', '#']

/-- Whether encodeURI passes the character through unchanged. -/
def uriUnescaped (c : Char) : Bool :=
  (('A' ≤ c && c ≤ 'Z') || ('a' ≤ c && c ≤ 'z') || ('0' ≤ c && c ≤ '9'))
    || uriMarks.contains c

/-- Uppercase hexadecimal digit for a value below 16. -/
def hexDigit (n : Nat) : Char :=
  if n < 10 then Char.ofNat (48 + n) else Char.ofNat (55 + n)

/-- Percent escape of one byte, as produced by encodeURI. -/
def byteEscape (b : Nat) : List Char :=
  ['%', hexDigit (b / 16), hexDigit (b % 16)]

/-- UTF-8 encoding of a code point, as a list of byte values. -/
def utf8Bytes (n : Nat) : List Nat :=
  if n < 128 then [n]
  else if n < 2048 then [192 + n / 64, 128 + n % 64]
  else if n < 65536 then [224 + n / 4096, 128 + (n / 64) % 64, 128 + n % 64]
  else [240 + n / 262144, 128 + (n / 4096) % 64, 128 + (n / 64) % 64, 128 + n % 64]

/-- Encoding of one character under encodeURI. -/
def encodeURIChar (c : Char) : List Char :=
  if uriUnescaped c then [c] else (utf8Bytes c.toNat).flatMap byteEscape

/-- Character-list worker for encodeURI. -/
def encList : List Char → List Char
  | [] => []
  | c :: rest => encodeURIChar c ++ encList rest

/-- Model of the JavaScript builtin encodeURI. -/
def encodeURI (s : String) : String := String.mk (encList s.toList)

/-- Numeric value of a hexadecimal digit character, 16 for anything else. -/
def hexVal (c : Char) : Nat :=
  if '0' ≤ c && c ≤ '9' then c.toNat - 48
  else if 'A' ≤ c && c ≤ 'F' then c.toNat - 55
  else if 'a' ≤ c && c ≤ 'f' then c.toNat - 87
  else 16

/-- Character-list worker for decodeURIComponent (ASCII fragment, see the
section comment above). -/
def decList : List Char → List Char
  | [] => []
  | '%' :: h₁ :: h₂ :: rest =>
    if hexVal h₁ < 16 && hexVal h₂ < 16 && 16 * hexVal h₁ + hexVal h₂ < 128 then
      Char.ofNat (16 * hexVal h₁ + hexVal h₂) :: decList rest
    else '%' :: decList (h₁ :: h₂ :: rest)
  | c :: rest => c :: decList rest

/-- Model of the JavaScript builtin decodeURIComponent on the ASCII
fragment. -/
def decodeURIComponent (s : String) : String := String.mk (decList s.toList)

/-- The Navigation value object of the typed variant (lines 251-258): the
encoded URL, the path portion, the decoded query mapping (an association
list standing for a JavaScript object, insertion ordered, later writes
overriding), and the cancellation flag. The free-form refs side channel is
not touched by any modelled operation and is omitted. -/
structure Navigation where
  url : String
  path : String
  query : List (String × String)
  cancelled : Bool
deriving DecidableEq, Repr

/-- JavaScript `s.split(sep, 2)` keeps the first two pieces of the full
split and discards the rest; this is piece 0 of the split. -/
def beforeFirst (sep : Char) (s : String) : String :=
  (jsSplit sep s).headD s

/-- JavaScript `s.split(sep, 2)` piece 1: the text between the first and
second occurrences of the separator — empty when the separator is absent,
and truncated at the second occurrence when there is one. -/
def betweenFirstSecond (sep : Char) (s : String) : String :=
  ((jsSplit sep s).drop 1).headD ""

/-- The query-pair loop of createFromUrl (lines 270-278): split the query
string on ampersands, split each pair with `split('=', 2)` (key before the
first equals sign, value between the first and second, empty when absent),
percent-decode key and value independently, write into the query object so
that later duplicate keys override earlier ones. -/
def parseQueryString (queryString : String) : List (String × String) :=
  (jsSplit '&' queryString).foldl
    (fun q pair =>
      setKey q (decodeURIComponent (beforeFirst '=' pair))
               (decodeURIComponent (betweenFirstSecond '=' pair)))
    []

/-- Model of Navigation.createFromUrl (lines 260-284): encode the whole URL
with encodeURI, then if it contains a question mark take the path from
`split('?', 2)` piece 0 and parse piece 1 as the query string, otherwise
the whole encoded URL is the path and the query is empty. The new
Navigation starts uncancelled. -/
def createFromUrl (url₀ : String) : Navigation :=
  let url := encodeURI url₀
  if containsChar '?' url then
    { url := url
      path := beforeFirst '?' url
      query := parseQueryString (betweenFirstSecond '?' url)
      cancelled := false }
  else
    { url := url, path := url, query := [], cancelled := false }

/-- Model of Router.route (lines 668-678): segment the path of the
Navigation and try the registered top-level handlers in order with an empty
parameter accumulator. -/
def routeNav (handlers : List Handler) (nav : Navigation) : Option CbCall :=
  Subrouter.route handlers [] (splitPath nav.path)

/-- A solo Router.navigate call with a string URL and no concurrent
navigation (lines 641-666 with nothing interleaved): false when no handlers
are registered, otherwise the handled boolean of the route walk — with no
superseding call the cancelled flag stays false, so handled is also what
navigate resolves to. -/
def navigateOnce (handlers : List Handler) (url : String) : Bool :=
  if handlers.isEmpty then false
  else (routeNav handlers (createFromUrl url)).isSome

/-! Construction-time arity check of the parameter matchers.

The BaseParamHandler constructor (lines 356-370) computes keysOf(validator)
and throws `Expected one validator, got N` unless exactly one field is
bound; paramBuilder and multiparamBuilder model the corresponding
BaseRouter.param / BaseRouter.multiparam registration calls, which run that
constructor at router-assembly time, before any routing. A thrown error is
modelled as Except.error carrying the message. -/

/-- Model of constructing ParamHandler via BaseRouter.param: the arity
check of the BaseParamHandler constructor, then a handler bound to the
single declared key and its field validator (with exactly one binding,
validating the one-field candidate object against the whole validator
object is exactly running that field validator). -/
def paramBuilder (validator : List (String × (String → Option Value)))
    (next : List Handler) : Except String Handler :=
  let keys := keysOf validator
  if keys.length == 1 then
    Except.ok (Handler.paramHandler (keys.headD "")
      (fun s =>
        match validator.lookup (keys.headD "") with
        | some f => f s
        | none => none)
      next)
  else
    let n := keys.length
    Except.error (s!"Expected one validator, got {n}")

/-- Model of constructing MultiParamHandler via BaseRouter.multiparam: the
same arity check, then a handler whose validator acts on the whole array of
remaining segments. The source wraps the field validator as
`isArray(eachItem(isString(), arrayValidator[key]))`; on a subpath that is
a list of strings the element-level isString constraint always holds, so
the composite reduces to the array-level field validator (the validator
package is external and is modelled by the validator contract of section 6
of the specification). -/
def multiparamBuilder (validator : List (String × (List String → Option Value)))
    (next : List Handler) : Except String Handler :=
  let keys := keysOf validator
  if keys.length == 1 then
    Except.ok (Handler.multiParamHandler (keys.headD "")
      (fun xs =>
        match validator.lookup (keys.headD "") with
        | some f => f xs
        | none => none)
      next)
  else
    let n := keys.length
    Except.error (s!"Expected one validator, got {n}")

/-! The navigation sequencer.

Router.navigate (lines 641-666) is one JavaScript async function with a
single suspension point, the `await this.route(nav)` of line 657. On the
single-threaded event loop it therefore runs as two atomic segments:

  - navStart, lines 642-656: if another navigation is pending mark it
    cancelled, construct the Navigation (cancelled = false for a fresh
    object), store it as the pending navigation;
  - navFinish, lines 658-665: clear the pending pointer, and if the walk
    handled the navigation and its cancelled flag is still false, commit —
    set currentNav, emit the navigated event, tell the history adapter to
    persist the URL (setUrl); finally resolve with the handled boolean.

Between the two segments, other navigate calls can run their own segments.
Navigation objects are named by numeric ids standing for object identity;
the per-object cancelled field is the one field mutated across calls, kept
in the state as a function from ids. Each navigate call on a string URL
creates a fresh Navigation, so ids of distinct calls are distinct; theorems
carry that freshness where they need it. The navigated event emissions and
the history-adapter setUrl calls are recorded as lists of ids. -/

/-- Sequencer state: the committed current navigation, the pending
navigation pointer, the cancelled flag of every navigation object, the
emission log of navigatedEvent, and the call log of browserApi.setUrl. -/
structure SeqState where
  currentNav : Option Nat
  nextNav : Option Nat
  cancelled : Nat → Bool
  events : List Nat
  setUrls : List Nat

/-- Pointwise update of the cancelled flags. -/
def setFlag (f : Nat → Bool) (j : Nat) (b : Bool) : Nat → Bool :=
  fun k => if k == j then b else f k

/-- The state with nothing navigated yet and every flag clear. -/
def initState : SeqState :=
  { currentNav := none, nextNav := none, cancelled := fun _ => false
    events := [], setUrls := [] }

/-- First atomic segment of Router.navigate (lines 642-656), for a call
that found registered handlers and creates a fresh Navigation with the
given id: mark the pending navigation, if any, cancelled; create the new
Navigation uncancelled; make it the pending navigation. -/
def navStart (st : SeqState) (id : Nat) : SeqState :=
  let st₁ :=
    match st.nextNav with
    | some j => { st with cancelled := setFlag st.cancelled j true }
    | none => st
  let st₂ := { st₁ with cancelled := setFlag st₁.cancelled id false }
  { st₂ with nextNav := some id }

/-- Second atomic segment of Router.navigate (lines 658-665), resumed after
the route walk of the navigation resolved with the given handled boolean:
clear the pending pointer unconditionally, commit exactly when handled and
not cancelled, and resolve with handled. -/
def navFinish (st : SeqState) (id : Nat) (handled : Bool) : SeqState × Bool :=
  let st₁ := { st with nextNav := none }
  if handled && !(st₁.cancelled id) then
    ({ st₁ with
        currentNav := some id
        events := st₁.events ++ [id]
        setUrls := st₁.setUrls ++ [id] }, handled)
  else (st₁, handled)

/-- One atomic segment of some navigate call, for interleaved executions. -/
inductive SeqStep where
  | start (id : Nat)
  | finish (id : Nat) (handled : Bool)
deriving DecidableEq

/-- Effect of one atomic segment on the sequencer state. -/
def runStep (st : SeqState) : SeqStep → SeqState
  | .start id => navStart st id
  | .finish id handled => (navFinish st id handled).1

/-- Effect of a sequence of atomic segments. -/
def runSteps (st : SeqState) (steps : List SeqStep) : SeqState :=
  steps.foldl runStep st

/-! Concrete routers used by the scenario clauses of the claims. -/

/-- Parse of a nonempty all-digit string, used by the numeric validator of
the scenario of section 8 of the specification. -/
def strToNat? (s : String) : Option Nat :=
  if s.toList != [] && s.toList.all Char.isDigit then
    some (s.toList.foldl (fun n c => 10 * n + (c.toNat - 48)) 0)
  else none

/-- A field validator accepting numeric strings and converting them, the
idValidator of the scenario. -/
def idValidator : String → Option Value := fun s => (strToNat? s).map fun n => Value.num n

/-- The router assembled by `path("users").param(idValidator).register(cb)`
with cb registered as callback 0: BaseRouter.path pushes a PathHandler
around a subrouter, BaseRouter.param pushes a ParamHandler (whose
construction succeeds, the validator binding exactly the one field id)
around a further subrouter, and register pushes a CallbackHandler with the
default options. -/
def usersRouter : List Handler :=
  [Handler.pathHandler (splitPath ("users"))
    [Handler.paramHandler ("id") idValidator [Handler.callbackHandler 0 false]]]

/-- An array validator binding the whole list of remaining segments, the
segmentsValidator of the scenario. -/
def segmentsValidator : List String → Option Value :=
  fun xs => some (Value.arr (xs.map Value.str))

/-- The router assembled by
`path("files").multiparam(segmentsValidator).register(cb)` with cb
registered as callback 0. -/
def filesRouter : List Handler :=
  [Handler.pathHandler (splitPath ("files"))
    [Handler.multiParamHandler ("segments") segmentsValidator [Handler.callbackHandler 0 false]]]

/-- The router assembled by registering the literal pattern `a/b` followed
by a terminal callback with the given ignoreAdditionalPath option:
`path("a/b").register(cb, \x7bignoreAdditionalPath\x7d)`. -/
def literalRouter (ignore : Bool) : List Handler :=
  [Handler.pathHandler (splitPath ("a/b")) [Handler.callbackHandler 0 ignore]]

/-- The router assembled by `path("a").register(cb)`, used to exhibit a
matching navigation for the sequencer claims. -/
def aRouter : List Handler :=
  [Handler.pathHandler (splitPath ("a")) [Handler.callbackHandler 0 false]]

/-! Helper lemmas. -/

/-- Rebuilding a string from its character list is the identity. -/
theorem mk_toList (s : String) : String.mk s.toList = s := rfl

/-- Lookup after the object-field write setKey: the written key reads back
the new value, every other key is unaffected. -/
theorem lookup_setKey {β : Type} (q : List (String × β)) (k : String) (v : β)
    (k' : String) :
    List.lookup k' (setKey q k v) = if k' == k then some v else List.lookup k' q := by
  induction q with
  | nil => cases hb : k' == k <;> simp [setKey, List.lookup, hb]
  | cons kv rest ih =>
    obtain ⟨k₀, v₀⟩ := kv
    cases hb₀ : k₀ == k with
    | true =>
      have hk : k₀ = k := by simpa using hb₀
      subst hk
      cases hb : k' == k₀ <;> simp [setKey, List.lookup, hb]
    | false =>
      cases hb : k' == k₀ with
      | true =>
        cases hb' : k' == k with
        | true =>
          have h₁ : k' = k₀ := by simpa using hb
          have h₂ : k' = k := by simpa using hb'
          have h₃ : ¬ k₀ = k := by simpa using hb₀
          exact absurd (h₁.symm.trans h₂) h₃
        | false => simp [setKey, List.lookup, hb₀, hb, hb']
      | false => simp [setKey, List.lookup, hb₀, hb, ih]

/-- Characterization of the route of the literal pattern a/b followed by a
terminal callback, at the level of segment lists. -/
theorem routeAB (ignore : Bool) (ss : List String) :
    (Subrouter.route (literalRouter ignore) [] ss).isSome
      = ((ss.take 2 == ["a", "b"]) && ((ss.length == 2) || ignore)) := by
  have hlit : literalRouter ignore
      = [Handler.pathHandler ["a", "b"] [Handler.callbackHandler 0 ignore]] := rfl
  rw [hlit]
  match ss with
  | [] => simp [Subrouter.route, Handler.route]
  | [x] => simp [Subrouter.route, Handler.route]
  | x :: y :: rest =>
    by_cases hx : "a" = x
    · subst hx
      by_cases hy : "b" = y
      · subst hy
        cases ignore <;> cases rest <;>
          simp_arith [Subrouter.route, Handler.route, prefixMatches]
      · cases ignore <;> cases rest <;>
          simp_arith [Subrouter.route, Handler.route, prefixMatches, hy, Ne.symm hy]
    · by_cases hy : "b" = y
      · subst hy
        cases ignore <;> cases rest <;>
          simp_arith [Subrouter.route, Handler.route, prefixMatches, hx, Ne.symm hx]
      · cases ignore <;> cases rest <;>
          simp_arith [Subrouter.route, Handler.route, prefixMatches, hx, Ne.symm hx, hy, Ne.symm hy]

/-! The claims. -/

/-- Claim C4: path segmentation splits the full path on slash and discards
empty segments, so the path /a//b/ yields exactly the segments a and b; and
for every path p routed against the registered literal pattern a/b followed
by a terminal callback, routing matches exactly when the first two
non-empty segments of p are a and b under exact case-sensitive string
equality and either there are no further segments or the terminal has
ignoreAdditionalPath set. -/
theorem c4_segmentation_and_literal_pattern :
    splitPath ("/a//b/") = ["a", "b"] ∧
    ∀ (p : String) (ignore : Bool),
      (routeNav (literalRouter ignore)
          { url := p, path := p, query := [], cancelled := false }).isSome
        = ((splitPath p).take 2 == ["a", "b"]
            && (((splitPath p).length == 2) || ignore)) := by
  refine ⟨rfl, fun p ignore => ?_⟩
  simpa [routeNav] using routeAB ignore (splitPath p)

/-- Claim C3: entries are tried strictly in registration order with the
first success returned and no further entries tried; an entry that
partially matches (its parameter matcher consumes a segment and succeeds)
but whose nested continuation fails is a failure of that whole entry with
no retry or alternate parse, and the next sibling entry is tried with the
original, unconsumed segment list and the original accumulator. -/
theorem c3_first_match_wins_no_backtracking :
    (∀ (e : Handler) (rest : List Handler) (params : Params)
        (subpath : List String) (c : CbCall),
        Handler.route e params subpath = some c →
        Subrouter.route (e :: rest) params subpath = some c) ∧
    (∀ (e : Handler) (rest : List Handler) (params : Params)
        (subpath : List String),
        Handler.route e params subpath = none →
        Subrouter.route (e :: rest) params subpath
          = Subrouter.route rest params subpath) ∧
    (∀ (key : String) (vf : String → Option Value) (next rest : List Handler)
        (params : Params) (seg : String) (segs : List String) (v : Value),
        vf seg = some v →
        Subrouter.route next (mergeParams params [(key, v)]) segs = none →
        Subrouter.route (Handler.paramHandler key vf next :: rest) params (seg :: segs)
          = Subrouter.route rest params (seg :: segs)) := by
  refine ⟨?_, ?_, ?_⟩
  · intro e rest params subpath c h
    simp [Subrouter.route, h]
  · intro e rest params subpath h
    simp [Subrouter.route, h]
  · intro key vf next rest params seg segs v hv hfail
    simp [Subrouter.route, Handler.route, hv, hfail]

/-- Witness for C3: a parameter entry whose validator accepts the segment
but whose continuation is the empty subrouter fails as a whole, and the
sibling callback entry is then tried with the original segment list. -/
theorem c3_first_match_wins_no_backtracking_witness :
    idValidator "42" = some (Value.num 42) ∧
    Subrouter.route [] (mergeParams [] [(("id"), Value.num 42)]) [] = none ∧
    Subrouter.route
        (Handler.paramHandler ("id") idValidator [] :: [Handler.callbackHandler 1 true])
        [] ["42"]
      = Subrouter.route [Handler.callbackHandler 1 true] [] ["42"] :=
  ⟨rfl, rfl,
    c3_first_match_wins_no_backtracking.2.2 ("id") idValidator []
      [Handler.callbackHandler 1 true] [] ("42") [] (Value.num 42) rfl rfl⟩

/-- Claim C5: the single-parameter matcher fails when no segment remains;
otherwise it runs the bound validator on the next raw segment, on validator
failure the branch fails, and on success it delegates with exactly one
segment consumed and the validated converted value merged into the
accumulator. Scenario: with path users, param idValidator and a registered
callback, routing /users/42 invokes the callback with id bound to the
converted number 42 and navigate resolves true, while routing /users/abc
matches nothing, invokes no callback, and navigate resolves false. -/
theorem c5_single_param_matcher :
    (∀ (key : String) (vf : String → Option Value) (next : List Handler)
        (params : Params),
        Handler.route (Handler.paramHandler key vf next) params [] = none) ∧
    (∀ (key : String) (vf : String → Option Value) (next : List Handler)
        (params : Params) (seg : String) (rest : List String),
        Handler.route (Handler.paramHandler key vf next) params (seg :: rest)
          = match vf seg with
            | none => none
            | some v => Subrouter.route next (mergeParams params [(key, v)]) rest) ∧
    routeNav usersRouter (createFromUrl ("/users/42"))
      = some (0, [(("id"), Value.num 42)]) ∧
    navigateOnce usersRouter ("/users/42") = true ∧
    routeNav usersRouter (createFromUrl ("/users/abc")) = none ∧
    navigateOnce usersRouter ("/users/abc") = false :=
  ⟨fun _ _ _ _ => rfl, fun _ _ _ _ _ _ => rfl, rfl, rfl, rfl, rfl⟩

/-- Claim C6: the multi-parameter matcher fails when zero segments remain;
otherwise it validates the whole array of remaining segments and on success
consumes them all, delegating with an empty remainder. Scenario: with path
files, multiparam segmentsValidator and a registered callback, routing
/files/a/b/c invokes the callback with the parameter bound to the array of
the segments a, b, c, and routing /files fails to match. -/
theorem c6_multi_param_matcher :
    (∀ (key : String) (vf : List String → Option Value) (next : List Handler)
        (params : Params),
        Handler.route (Handler.multiParamHandler key vf next) params [] = none) ∧
    (∀ (key : String) (vf : List String → Option Value) (next : List Handler)
        (params : Params) (seg : String) (rest : List String),
        Handler.route (Handler.multiParamHandler key vf next) params (seg :: rest)
          = match vf (seg :: rest) with
            | none => none
            | some v => Subrouter.route next (mergeParams params [(key, v)]) []) ∧
    routeNav filesRouter (createFromUrl ("/files/a/b/c"))
      = some (0, [(("segments"),
          Value.arr [Value.str ("a"), Value.str ("b"), Value.str ("c")])]) ∧
    routeNav filesRouter (createFromUrl ("/files")) = none :=
  ⟨fun _ _ _ _ => rfl, fun _ _ _ _ _ _ => rfl, rfl, rfl⟩

/-- Claim C10: when a parameter matcher fails (validator failure or failure
of the delegated continuation), the sibling entries tried afterwards by the
enclosing router observe the original accumulator object and the original
unconsumed segment list; and the merge performed on success is a fresh
object with override semantics — the value written for the declared key
reads back, every other key reads from the original accumulator, which is
itself passed unchanged to siblings. -/
theorem c10_param_failure_leaves_frame :
    (∀ (key : String) (vf : String → Option Value) (next rest : List Handler)
        (params : Params) (subpath : List String),
        Handler.route (Handler.paramHandler key vf next) params subpath = none →
        Subrouter.route (Handler.paramHandler key vf next :: rest) params subpath
          = Subrouter.route rest params subpath) ∧
    (∀ (key : String) (vf : List String → Option Value) (next rest : List Handler)
        (params : Params) (subpath : List String),
        Handler.route (Handler.multiParamHandler key vf next) params subpath = none →
        Subrouter.route (Handler.multiParamHandler key vf next :: rest) params subpath
          = Subrouter.route rest params subpath) ∧
    (∀ (params : Params) (key : String) (v : Value) (k : String),
        List.lookup k (mergeParams params [(key, v)])
          = if k == key then some v else List.lookup k params) := by
  refine ⟨?_, ?_, ?_⟩
  · intro key vf next rest params subpath h
    simp [Subrouter.route, h]
  · intro key vf next rest params subpath h
    simp [Subrouter.route, h]
  · intro params key v k
    exact lookup_setKey params key v k

/-- Witness for C10: a failing single-parameter entry (validator rejects
the segment abc) falls through to its sibling with the original arguments,
and the merge of id into an accumulator holding ref reads back both. -/
theorem c10_param_failure_leaves_frame_witness :
    Handler.route (Handler.paramHandler ("id") idValidator []) [] ["abc"] = none ∧
    Subrouter.route
        (Handler.paramHandler ("id") idValidator [] :: [Handler.callbackHandler 1 true])
        [] ["abc"]
      = Subrouter.route [Handler.callbackHandler 1 true] [] ["abc"] ∧
    List.lookup ("id") (mergeParams [(("ref"), Value.num 7)] [(("id"), Value.num 42)])
      = some (Value.num 42) ∧
    List.lookup ("ref") (mergeParams [(("ref"), Value.num 7)] [(("id"), Value.num 42)])
      = some (Value.num 7) :=
  ⟨rfl,
    c10_param_failure_leaves_frame.1 ("id") idValidator []
      [Handler.callbackHandler 1 true] [] ["abc"] rfl,
    rfl, rfl⟩

/-- Claim C9: constructing a parameter matcher through param or multiparam
with a validator object binding zero fields or more than one field raises
an error at router-assembly time, before any routing; binding exactly one
field succeeds. -/
theorem c9_param_arity_checked_at_construction :
    (∀ (v : List (String × (String → Option Value))) (next : List Handler),
        (∃ h, paramBuilder v next = Except.ok h) ↔ (keysOf v).length = 1) ∧
    (∀ (v : List (String × (String → Option Value))) (next : List Handler),
        (∃ msg, paramBuilder v next = Except.error msg) ↔ (keysOf v).length ≠ 1) ∧
    (∀ (v : List (String × (List String → Option Value))) (next : List Handler),
        (∃ h, multiparamBuilder v next = Except.ok h) ↔ (keysOf v).length = 1) ∧
    (∀ (v : List (String × (List String → Option Value))) (next : List Handler),
        (∃ msg, multiparamBuilder v next = Except.error msg) ↔ (keysOf v).length ≠ 1) := by
  refine ⟨?_, ?_, ?_, ?_⟩ <;> intro v next <;>
    cases hb : (keysOf v).length == 1 <;>
      simp_all [paramBuilder, multiparamBuilder]

/-- Witness for C9: one binding builds, zero or two bindings raise. -/
theorem c9_param_arity_checked_at_construction_witness :
    (∃ h, paramBuilder [(("id"), idValidator)] [] = Except.ok h) ∧
    (∃ msg, paramBuilder [] [] = Except.error msg) ∧
    (∃ msg, paramBuilder [(("a"), idValidator), (("b"), idValidator)] []
        = Except.error msg) ∧
    (∃ h, multiparamBuilder [(("segments"), segmentsValidator)] [] = Except.ok h) :=
  ⟨(c9_param_arity_checked_at_construction.1 _ _).mpr rfl,
   (c9_param_arity_checked_at_construction.2.1 _ _).mpr (by decide),
   (c9_param_arity_checked_at_construction.2.1 _ _).mpr (by decide),
   (c9_param_arity_checked_at_construction.2.2.1 _ _).mpr rfl⟩

/-- If the separator occurs nowhere in the character list, the split is the
whole list as its single piece. -/
theorem splitChars_no_sep (sep : Char) (l : List Char) (h : sep ∉ l) :
    splitChars sep l = [l] := by
  induction l with
  | nil => rfl
  | cons c rest ih =>
    have hc : ¬ sep = c := fun hcc => h (by simp [hcc])
    have hr : sep ∉ rest := fun hm => h (by simp [hm])
    have hcb : (c == sep) = false := by
      simp only [beq_eq_false_iff_ne]
      exact fun hcc => hc hcc.symm
    simp [splitChars, hcb, ih hr]

/-- Splitting at the first separator occurrence: with no separator in the
front part, the split is the front part followed by the split of the rest. -/
theorem splitChars_append (sep : Char) (l₁ l₂ : List Char) (h : sep ∉ l₁) :
    splitChars sep (l₁ ++ sep :: l₂) = l₁ :: splitChars sep l₂ := by
  induction l₁ with
  | nil => simp [splitChars]
  | cons c rest ih =>
    have hc : ¬ sep = c := fun hcc => h (by simp [hcc])
    have hr : sep ∉ rest := fun hm => h (by simp [hm])
    have hcb : (c == sep) = false := by
      simp only [beq_eq_false_iff_ne]
      exact fun hcc => hc hcc.symm
    simp [splitChars, hcb, ih hr]

/-- Claim C7, counterexample: the claim says each query pair is split on
the first equals sign (so for the pair a=1=2 the value would be 1=2) and
the URL on the first question mark (so for p?x=1?b=2 the query string would
be x=1?b=2); the code instead uses the JavaScript two-limit split, which
discards everything from the second occurrence on, yielding the value 1 and
the query string x=1. -/
theorem c7_split_limit_counterexample :
    (createFromUrl ("p?a=1=2")).query = [(("a"), ("1"))] ∧
    (("1") : String) ≠ ("1=2") ∧
    (createFromUrl ("p?x=1?b=2")).query = [(("x"), ("1"))] ∧
    betweenFirstSecond '?' ("p?x=1?b=2") = "x=1" ∧
    (("x=1") : String) ≠ ("x=1?b=2") :=
  ⟨rfl, by decide, rfl, rfl, by decide⟩

/-- Claim C7 as amended: createFromUrl takes the path from before the first
question mark and the query string from between the first and second
(anything after a second question mark is discarded); each
ampersand-separated pair yields the key before its first equals sign and
the value between its first and second (anything later discarded, a pair
with no equals sign an empty value), key and value percent-decoded
independently, later duplicate keys overriding; when the encoded URL has no
question mark the whole of it is the path and the query is empty. When the
separator occurs exactly once the two-limit split coincides with splitting
on the first occurrence, recovering the original wording. -/
theorem c7_amended_url_parsing :
    (∀ u : String, containsChar '?' (encodeURI u) = false →
        (createFromUrl u).path = encodeURI u ∧ (createFromUrl u).query = []) ∧
    (∀ u : String, containsChar '?' (encodeURI u) = true →
        (createFromUrl u).path = beforeFirst '?' (encodeURI u) ∧
        (createFromUrl u).query
          = parseQueryString (betweenFirstSecond '?' (encodeURI u))) ∧
    (∀ l₁ l₂ : List Char, '?' ∉ l₁ → '?' ∉ l₂ →
        beforeFirst '?' (String.mk (l₁ ++ '?' :: l₂)) = String.mk l₁ ∧
        betweenFirstSecond '?' (String.mk (l₁ ++ '?' :: l₂)) = String.mk l₂) ∧
    (createFromUrl ("p?a=1&a=2&b=")).query = [(("a"), ("2")), (("b"), (""))] ∧
    (∀ (q : List (String × String)) (k v k' : String),
        List.lookup k' (setKey q k v) = if k' == k then some v else List.lookup k' q) := by
  refine ⟨?_, ?_, ?_, rfl, fun q k v k' => lookup_setKey q k v k'⟩
  · intro u h
    constructor <;> simp [createFromUrl, h]
  · intro u h
    constructor <;> simp [createFromUrl, h]
  · intro l₁ l₂ h₁ h₂
    constructor
    · simp [beforeFirst, jsSplit, splitChars_append '?' l₁ l₂ h₁]
    · simp [betweenFirstSecond, jsSplit, splitChars_append '?' l₁ l₂ h₁,
        splitChars_no_sep '?' l₂ h₂]

/-- Witness for C7 as amended: the URL p?a=1 has one question mark; its
path is p and its query holds the single decoded pair. -/
theorem c7_amended_url_parsing_witness :
    containsChar '?' (encodeURI ("p?a=1")) = true ∧
    (createFromUrl ("p?a=1")).path = beforeFirst '?' (encodeURI ("p?a=1")) ∧
    (createFromUrl ("p?a=1")).query
      = parseQueryString (betweenFirstSecond '?' (encodeURI ("p?a=1"))) :=
  ⟨rfl, (c7_amended_url_parsing.2.1 ("p?a=1") rfl).1,
    (c7_amended_url_parsing.2.1 ("p?a=1") rfl).2⟩

/-- The UTF-8 byte list of a code point is never empty. -/
theorem utf8Bytes_ne_nil (n : Nat) : utf8Bytes n ≠ [] := by
  unfold utf8Bytes
  split_ifs <;> simp

/-- The escape of a character that encodeURI does not pass through always
contains a percent sign. -/
theorem percent_mem_encodeURIChar (c : Char) (h : uriUnescaped c = false) :
    '%' ∈ encodeURIChar c := by
  obtain ⟨b, hb⟩ := List.exists_mem_of_ne_nil (utf8Bytes c.toNat) (utf8Bytes_ne_nil _)
  simp only [encodeURIChar, h]
  exact List.mem_flatMap.mpr ⟨b, hb, by simp [byteEscape]⟩

/-- If the encoded output contains no percent sign, every input character
was passed through unescaped. -/
theorem encList_all_unescaped (l : List Char) (h : '%' ∉ encList l) :
    ∀ c ∈ l, uriUnescaped c = true := by
  induction l with
  | nil => simp
  | cons c rest ih =>
    have h₁ : '%' ∉ encodeURIChar c := fun hm => h (by simp [encList, hm])
    have h₂ : '%' ∉ encList rest := fun hm => h (by simp [encList, hm])
    intro x hx
    rcases List.mem_cons.mp hx with rfl | hx'
    · cases hu : uriUnescaped x with
      | true => rfl
      | false => exact absurd (percent_mem_encodeURIChar x hu) h₁
    · exact ih h₂ x hx'

/-- Encoding a list of characters that are all unescaped is the identity. -/
theorem encList_id_of_unescaped (l : List Char) (h : ∀ c ∈ l, uriUnescaped c = true) :
    encList l = l := by
  induction l with
  | nil => rfl
  | cons c rest ih =>
    have hc := h c (by simp)
    have hrest := ih fun x hx => h x (by simp [hx])
    simp [encList, encodeURIChar, hc, hrest]

/-- A URL whose encoding contains no percent sign is a fixed point of
encodeURI. -/
theorem encodeURI_fixed (u : String) (h : '%' ∉ (encodeURI u).toList) :
    encodeURI u = u := by
  have h' : '%' ∉ encList u.toList := h
  have hid := encList_id_of_unescaped u.toList (encList_all_unescaped u.toList h')
  calc encodeURI u = String.mk (encList u.toList) := rfl
    _ = String.mk u.toList := by rw [hid]
    _ = u := mk_toList u

/-- The url field of every created Navigation is the encoded input URL. -/
theorem createFromUrl_url (u : String) : (createFromUrl u).url = encodeURI u := by
  by_cases h : containsChar '?' (encodeURI u) <;> simp [createFromUrl, h]

/-- Claim C8, counterexample: the initial percent-encoding step is not
idempotent — encodeURI escapes the percent sign itself, so re-running
createFromUrl on the encoded URL double-encodes: the URL a b encodes to
a%20b, and re-encoding that yields a%2520b, a different url (hence a
different Navigation) from the first pass. -/
theorem c8_reencoding_counterexample :
    (createFromUrl ("a b")).url = "a%20b" ∧
    (createFromUrl ((createFromUrl ("a b")).url)).url = "a%2520b" ∧
    (("a%2520b") : String) ≠ ("a%20b") :=
  ⟨rfl, rfl, by decide⟩

/-- Claim C8 as amended: re-applying createFromUrl to the encoded URL it
produced is the identity only when that encoded URL contains no percent
sign (nothing was escaped by the first pass and the input had no percent
sign); in general the percent signs of the first encoding are themselves
re-escaped, double-encoding the URL. -/
theorem c8_amended_idempotent_when_percent_free (u : String)
    (h : '%' ∉ (encodeURI u).toList) :
    createFromUrl ((createFromUrl u).url) = createFromUrl u := by
  rw [createFromUrl_url, encodeURI_fixed u h]

/-- Witness for C8 as amended: the URL abc encodes to itself with no
percent sign, and re-parsing its encoded form changes nothing. -/
theorem c8_amended_idempotent_when_percent_free_witness :
    ('%' ∉ (encodeURI ("abc")).toList) ∧
    createFromUrl ((createFromUrl ("abc")).url) = createFromUrl ("abc") :=
  ⟨by decide, c8_amended_idempotent_when_percent_free ("abc") (by decide)⟩

/-- One atomic segment that is not the creating start of navigation a
leaves a set cancelled flag of a set: finishing any navigation never
touches cancelled flags, and starting another navigation only sets flags
to true (for the superseded pending navigation) or clears the flag of the
fresh object it creates, which is not a. -/
theorem runStep_keeps_cancelled (st : SeqState) (a : Nat) (s : SeqStep)
    (hc : st.cancelled a = true) (hs : s ≠ SeqStep.start a) :
    (runStep st s).cancelled a = true := by
  cases s with
  | start j =>
    have haj : a ≠ j := fun h => hs (by rw [h])
    have hja : (a == j) = false := by
      simp only [beq_eq_false_iff_ne]
      exact haj
    cases hnext : st.nextNav with
    | none => simp [runStep, navStart, setFlag, hnext, hja, hc]
    | some p =>
      cases hap : a == p <;>
        simp [runStep, navStart, setFlag, hnext, hja, hap, hc]
  | finish j hd =>
    simp only [runStep, navFinish]
    split <;> simp [hc]

/-- A set cancelled flag survives any sequence of atomic segments that does
not contain the creating start of that navigation. -/
theorem runSteps_keep_cancelled (mids : List SeqStep) (st : SeqState) (a : Nat)
    (hc : st.cancelled a = true) (hm : SeqStep.start a ∉ mids) :
    (runSteps st mids).cancelled a = true := by
  induction mids generalizing st with
  | nil => exact hc
  | cons s rest ih =>
    have h₁ : s ≠ SeqStep.start a := fun h => hm (by simp [h])
    have h₂ : SeqStep.start a ∉ rest := fun h => hm (List.mem_cons_of_mem _ h)
    exact ih (runStep st s) (runStep_keeps_cancelled st a s hc h₁) h₂

/-- Claim C2: when navigate(urlB) starts while navigate(urlA) is still
pending, the later resolution of navigation a never mutates currentNav,
never emits the navigated event, and never calls the history adapter —
whatever other navigations start or finish in between (navigation ids name
the distinct Navigation objects of the two calls, and the interleaved
segments contain no start of a because each call creates a fresh object). -/
theorem c2_superseded_navigation_never_commits
    (st₀ : SeqState) (a b : Nat) (hab : b ≠ a) (mids : List SeqStep)
    (hm : SeqStep.start a ∉ mids) (handled : Bool) :
    (runStep (runSteps (runStep (runStep st₀ (SeqStep.start a)) (SeqStep.start b)) mids)
        (SeqStep.finish a handled)).currentNav
      = (runSteps (runStep (runStep st₀ (SeqStep.start a)) (SeqStep.start b))
          mids).currentNav ∧
    (runStep (runSteps (runStep (runStep st₀ (SeqStep.start a)) (SeqStep.start b)) mids)
        (SeqStep.finish a handled)).events
      = (runSteps (runStep (runStep st₀ (SeqStep.start a)) (SeqStep.start b))
          mids).events ∧
    (runStep (runSteps (runStep (runStep st₀ (SeqStep.start a)) (SeqStep.start b)) mids)
        (SeqStep.finish a handled)).setUrls
      = (runSteps (runStep (runStep st₀ (SeqStep.start a)) (SeqStep.start b))
          mids).setUrls := by
  have hba : (a == b) = false := by
    simp only [beq_eq_false_iff_ne]
    exact fun h => hab h.symm
  have hcan₂ : (runStep (runStep st₀ (SeqStep.start a)) (SeqStep.start b)).cancelled a
      = true := by
    simp [runStep, navStart, setFlag, hba]
  have hcan₃ := runSteps_keep_cancelled mids _ a hcan₂ hm
  simp only [runStep] at hcan₃
  refine ⟨?_, ?_, ?_⟩ <;> simp [runStep, navFinish, hcan₃]

/-- Witness for C2: concrete ids 0 and 1, with navigation 1 finishing
first (handled) in between; the later finish of navigation 0 leaves
currentNav, the event log and the setUrl log unchanged. -/
theorem c2_superseded_navigation_never_commits_witness :
    (runStep (runSteps (runStep (runStep initState (SeqStep.start 0)) (SeqStep.start 1))
          [SeqStep.finish 1 true]) (SeqStep.finish 0 true)).currentNav
      = (runSteps (runStep (runStep initState (SeqStep.start 0)) (SeqStep.start 1))
          [SeqStep.finish 1 true]).currentNav ∧
    (runStep (runSteps (runStep (runStep initState (SeqStep.start 0)) (SeqStep.start 1))
          [SeqStep.finish 1 true]) (SeqStep.finish 0 true)).events
      = (runSteps (runStep (runStep initState (SeqStep.start 0)) (SeqStep.start 1))
          [SeqStep.finish 1 true]).events :=
  ⟨(c2_superseded_navigation_never_commits initState 0 1 (by decide)
      [SeqStep.finish 1 true] (by decide) true).1,
   (c2_superseded_navigation_never_commits initState 0 1 (by decide)
      [SeqStep.finish 1 true] (by decide) true).2.1⟩

/-- Claim C1, counterexample: a navigation that matches a registered route
(the route walk of /a against the router registering path a succeeds) but
is cancelled when its walk completes still resolves to true — the source
returns the handled boolean untouched by cancellation — while the commit
is skipped: currentNav stays none and no navigated event fires. The claim
says such a navigate call resolves to false. -/
theorem c1_cancelled_navigation_counterexample :
    (routeNav aRouter (createFromUrl ("/a"))).isSome = true ∧
    (runStep (runStep initState (SeqStep.start 0)) (SeqStep.start 1)).cancelled 0
      = true ∧
    (navFinish (runStep (runStep initState (SeqStep.start 0)) (SeqStep.start 1)) 0
        ((routeNav aRouter (createFromUrl ("/a"))).isSome)).2 = true ∧
    (navFinish (runStep (runStep initState (SeqStep.start 0)) (SeqStep.start 1)) 0
        ((routeNav aRouter (createFromUrl ("/a"))).isSome)).1.currentNav = none ∧
    (navFinish (runStep (runStep initState (SeqStep.start 0)) (SeqStep.start 1)) 0
        ((routeNav aRouter (createFromUrl ("/a"))).isSome)).1.events = [] :=
  ⟨rfl, rfl, rfl, rfl, rfl⟩

/-- Claim C1 as amended: navigate resolves to the handled boolean of the
route walk — true whenever the navigation matched, whether or not it was
cancelled; matched AND not cancelled is what decides the commit: exactly
then currentNav becomes this navigation, the navigated event fires and the
history adapter is told to persist the URL, and otherwise all three are
left unchanged (so the previously current Navigation remains current). -/
theorem c1_amended_navigate_resolves_handled (st : SeqState) (id : Nat)
    (handled : Bool) :
    (navFinish st id handled).2 = handled ∧
    (navFinish st id handled).1.currentNav
      = (if handled && !(st.cancelled id) then some id else st.currentNav) ∧
    (navFinish st id handled).1.events
      = (if handled && !(st.cancelled id) then st.events ++ [id] else st.events) ∧
    (navFinish st id handled).1.setUrls
      = (if handled && !(st.cancelled id) then st.setUrls ++ [id] else st.setUrls) ∧
    (navFinish st id handled).1.nextNav = none := by
  cases hcond : handled && !(st.cancelled id) <;>
    simp [navFinish, hcond]

end TypedAppRouter
